import Mathlib

/-!
go-tor-chat: session engine, dial/retry loop and send path.

A shallow embedding of the three Go source files

* `client/client.go`            (package `go-dmtor/client`, namespace `Dmtor`)
* `internal/client/client.go`   (package `go-shaihulud/internal/client`, namespace `Shaihulud`)
* `internal/interfaces/interfaces.go`

Conventions of the embedding.

* A Go byte slice is a list of bytes (`Bytes`); so is a Go string that carries message
  data. Names, addresses and log texts are Lean strings.
* A Go `error` is the text of its message, `nil` is `none`.
* A channel is the list of values sent on it, oldest first; a send appends.
* A goroutine loop that blocks on a `select` is driven by a script: one entry per
  iteration says which case of the `select` fired and what the blocking call returned.
  A loop that has used up its script without returning is still running (`none`).
* Log calls at Debug level are left out. In the send and receive loops every other log
  call and every print is recorded, in order; the timestamp of a print is left out.
-/

namespace GoTorChat

/-- A Go byte slice (and a Go string, which is a byte sequence). -/
abbrev Bytes := List Nat

/-! ## Packages that are imported by the sources but are not part of them -/

/-- Modelled from the spec: the message type enumeration of package `message`
(`HELLO`, `ACK`, `KEY`, `MSG`, plus an open-ended fallback for unrecognised values). -/
inductive MsgType where
  | HELLO
  | ACK
  | KEY
  | MSG
  | other (tag : Nat)
  deriving DecidableEq, Repr

/-- Modelled from the spec: a protocol frame of package `message`
(`type`, `length`, `body`); the field `Type` of the source is spelled `Typ`. -/
structure Message where
  Typ : MsgType
  Len : Nat
  Body : Bytes
  deriving DecidableEq, Repr

/-- Modelled from the spec: `message.NewMSG`, the MSG frame around a ciphertext
(`length` is the byte length of `body`). -/
def NewMSG (body : Bytes) : Message :=
  { Typ := MsgType.MSG, Len := body.length, Body := body }

/-- Modelled from the spec: `message.NewKey`, the KEY frame around public-key bytes. -/
def NewKey (body : Bytes) : Message :=
  { Typ := MsgType.KEY, Len := body.length, Body := body }

/-- A `net.Conn`: the duplex byte stream of one socket. The only operation the
embedded code performs on it besides reading and writing is `Close`, whose calls are
counted. -/
structure Stream where
  id : Nat
  closeCalls : Nat
  deriving DecidableEq, Repr

/-- The method `Close` of `net.Conn`. -/
def Stream.Close (s : Stream) : Stream :=
  { s with closeCalls := s.closeCalls + 1 }

/-! ## `internal/interfaces/interfaces.go` -/

/-- The interface `interfaces.Asymmetric`. -/
structure Asymmetric where
  Encrypt : Bytes → Bytes → Except String Bytes
  Decrypt : Bytes → Except String Bytes
  PubKey : Bytes

/-! ## `internal/client/client.go` -/

namespace Shaihulud

/-- Modelled from the spec: `connection.Connection` of package
`internal/client/connection` (stream, display identity, peer public key; the key is
the empty slice until a KEY message was received). -/
structure Connection where
  Conn : Option Stream
  Name : String
  PubKey : Bytes
  deriving DecidableEq, Repr

/-- Modelled from the spec: `connection.New`, a fresh connection around a stream with
no identity and no peer key. -/
def Connection.New (conn : Stream) : Connection :=
  { Conn := some conn, Name := "", PubKey := [] }

/-- The interface `Connector`; only `RunClient` is called by the embedded code. -/
structure Connector where
  RunClient : String → Except String Stream

/-- The type `ConnectionType` is a Go `int`. -/
abbrev ConnectionType := Int

/-- The constant `Local` (`iota` = 0). -/
def Local : ConnectionType := 0

/-- The constant `Tor` (`iota` = 1). -/
def Tor : ConnectionType := 1

/-- A `tui.Event` sent on `eventsCh`. -/
inductive TuiEvent where
  | spin (text : String)
  | text (text : String)
  deriving DecidableEq, Repr

/-- The struct `Client`. `sessions` counts the Sender/Receiver goroutine pairs that
were started (the field `listner` of the source holds the latest one). -/
structure Client where
  msgCh : List Message
  eventsCh : List TuiEvent
  connector : Connector
  crypter : Asymmetric
  user : Option Connection
  connType : ConnectionType
  sessions : Nat

/-- The `switch c.connType` of `RunClient`: the values of the function-level variables
`address` and `output` after the switch, or the error returned by the default case.
In the `Tor` case the source writes `address := "demo.onion"`, which declares a new
variable scoped to the case (named `inner` here) and leaves the function-level
`address` as it was. -/
def RunClient.selectAddress (connType : ConnectionType) : Except String (String × String) :=
  let address := ""
  if connType = Local then
    let address := "localhost:3000"
    let output := "Connecting to " ++ address ++ "..."
    Except.ok (address, output)
  else if connType = Tor then
    let inner := "demo.onion"
    let output := "Starting TOR..."
    let _logged := "Starting tor, connecting to onion address: " ++ inner ++ "\n"
    Except.ok (address, output)
  else
    Except.error ("unknown connection type: " ++ toString connType ++ "\n")

/-- What a call of `RunClient` did: the client afterwards, the addresses handed to
`connector.RunClient` (in order), and the returned error. -/
structure RunClientResult where
  client : Client
  dialled : List String
  err : Option String

/-- The method `Client.RunClient`. -/
def Client.RunClient (c : Client) : RunClientResult :=
  match RunClient.selectAddress c.connType with
  | Except.error e => { client := c, dialled := [], err := some e }
  | Except.ok (address, output) =>
    let c1 := { c with eventsCh := c.eventsCh ++ [TuiEvent.spin output] }
    match c1.connector.RunClient address with
    | Except.error e =>
      { client := c1, dialled := [address],
        err := some ("cant connect to server: " ++ e ++ "\n") }
    | Except.ok conn =>
      let user := Connection.New conn
      { client := { c1 with user := some user, sessions := c1.sessions + 1 },
        dialled := [address], err := none }

/-- How a call of `Send` ended: it returned (with the client afterwards and the
returned error), or it dereferenced the nil `c.user` and panicked. -/
inductive SendResult where
  | panicked
  | returned (client : Client) (err : Option String)

/-- The method `Client.Send`. -/
def Client.Send (c : Client) (msg : Bytes) : SendResult :=
  match c.user with
  | none => SendResult.panicked
  | some user =>
    match c.crypter.Encrypt msg user.PubKey with
    | Except.error err => SendResult.returned c (some err)
    | Except.ok inputCipher =>
      SendResult.returned { c with msgCh := c.msgCh ++ [NewMSG inputCipher] } none

/-- The error returned by a call of `Send`, when it returned one. -/
def SendResult.err : SendResult → Option String
  | SendResult.panicked => none
  | SendResult.returned _ err => err

/-- The mailbox `msgCh` after a call of `Send` that returned. -/
def SendResult.msgCh : SendResult → Option (List Message)
  | SendResult.panicked => none
  | SendResult.returned client _ => some client.msgCh

/-! ### A concrete client, for concrete runs -/

/-- A toy crypter that reverses the bytes and accepts every key, the empty one too. -/
def sampleCrypter : Asymmetric :=
  { Encrypt := fun msg _ => Except.ok msg.reverse
    Decrypt := fun cipher => Except.ok cipher.reverse
    PubKey := [33, 3] }

/-- A toy crypter that reverses the bytes and refuses an empty key. -/
def strictCrypter : Asymmetric :=
  { Encrypt := fun msg key =>
      if key = [] then Except.error "no public key" else Except.ok msg.reverse
    Decrypt := fun cipher => Except.ok cipher.reverse
    PubKey := [33, 3] }

/-- A connector that connects on stream 7, to any address but the empty one. -/
def sampleConnector : Connector :=
  { RunClient := fun address =>
      if address = "" then Except.error "missing address"
      else Except.ok { id := 7, closeCalls := 0 } }

/-- A client of the given connection type that is connected on stream 7 to a peer
with the given public key (empty: no KEY message was received yet). -/
def sampleClient (connType : ConnectionType) (crypter : Asymmetric) (peerKey : Bytes) :
    Client :=
  { msgCh := []
    eventsCh := []
    connector := sampleConnector
    crypter := crypter
    user := some { Conn := some { id := 7, closeCalls := 0 }, Name := "", PubKey := peerKey }
    connType := connType
    sessions := 0 }

end Shaihulud

/-! ## `client/client.go` -/

namespace Dmtor

/-- The type `rsa.PublicKey`; its zero value stands for a key that is not set. -/
structure PublicKey where
  N : Nat
  E : Nat
  deriving DecidableEq, Repr

/-- The type `rsa.PrivateKey`. -/
structure PrivateKey where
  PublicKey : PublicKey
  D : Nat
  deriving DecidableEq, Repr

/-- Modelled from the spec: `connection.Connection` of package `client/connection`
(stream, display identity, peer public key). -/
structure Connection where
  Conn : Option Stream
  Name : String
  PubKey : PublicKey
  deriving DecidableEq, Repr

/-- Modelled from the spec: `connection.New`, a fresh connection around a stream with
no identity and no peer key. -/
def Connection.New (conn : Stream) : Connection :=
  { Conn := some conn, Name := "", PubKey := { N := 0, E := 0 } }

/-- Modelled from the spec: the method `Updade` of `connection.Connection`, which
binds a parsed peer public key to the connection. -/
def Connection.Updade (c : Connection) (userPubKey : PublicKey) : Connection :=
  { c with PubKey := userPubKey }

/-- The constants and functions of the packages `config`, `cryptotools` and `message`
that `client/client.go` uses; these packages are imported, their sources are not among
the three files, so the embedding takes them as parameters. `Deserialize` returns a message and
an error, as in Go, and the caller decides what to do with the message when the error
is set. -/
structure Env where
  CLIENT_MAX_RETRY : Nat
  MSG_MAX_SIZE : Nat
  MessageEncrypt : Bytes → PublicKey → Bytes
  MessageDecrypt : Bytes → PrivateKey → Bytes
  PubToBytes : PublicKey → Except String Bytes
  BytesToPub : Bytes → Except String PublicKey
  Deserialize : Bytes → Message × Option String
  Serialize : Message → Bytes
  Data : Message → Bytes

/-- The struct `Client` (the context fields are observed through the scripts). -/
structure Client where
  addr : String
  conn : Option Connection
  msgCh : List Message
  privKey : PrivateKey
  pubKey : PublicKey
  deriving DecidableEq, Repr

/-- The method `Client.disconnect`. -/
def Client.disconnect (c : Client) : Client :=
  match c.conn with
  | none => c
  | some conn =>
    match conn.Conn with
    | none => c
    | some stream => { c with conn := some { conn with Conn := some stream.Close } }

/-- The method `Client.SendMessage`; it has no result, and `none` stands for the panic
of dereferencing a nil `c.conn`. -/
def Client.SendMessage (env : Env) (c : Client) (msg : Bytes) : Option Client :=
  match c.conn with
  | none => none
  | some conn =>
    let inputCipher := env.MessageEncrypt msg conn.PubKey
    some { c with msgCh := c.msgCh ++ [NewMSG inputCipher] }

/-! ### `ServerConnect` -/

/-- One iteration of the `for`/`select` of `ServerConnect`, as the environment decides
it: the client context is done (with the value of `ctx.Err()`), or `net.Dial` is
refused with an error, or `net.Dial` connects and the session started on the connection
later ends (its context is cancelled), which unblocks the loop. -/
inductive DialTick where
  | ctxDone (err : String)
  | refused (err : String)
  | connected (conn : Stream)
  deriving DecidableEq, Repr

/-- The effects of `ServerConnect`, in order: a call of `net.Dial`, a `time.Sleep` of
so many seconds, and a session (a new connection with its `sender` and `listner`). -/
inductive ConnectEvent where
  | dial
  | sleep (seconds : Nat)
  | session
  deriving DecidableEq, Repr

/-- The local variables of `ServerConnect`, the client, and the effects and log lines
so far. -/
structure ConnectState where
  client : Client
  retry : Nat
  isFirstTry : Bool
  trace : List ConnectEvent
  logs : List String
  deriving DecidableEq, Repr

/-- The error returned by `ServerConnect` and the state at the return. -/
structure ConnectResult where
  err : String
  state : ConnectState
  deriving DecidableEq, Repr

/-- The error of a refused first dial. -/
def errServerUnavailable : String := "Server no avaiable, retry later"

/-- The error of an exhausted retry budget, around the last dial error. -/
def errMaxRetry (err : String) : String :=
  "Max retry reached, Connection error: " ++ err ++ "\n"

/-- The `for` loop of `ServerConnect`. -/
def ServerConnect.loop (env : Env) (s : ConnectState) : List DialTick → Option ConnectResult
  | [] => none
  | DialTick.ctxDone err :: _ => some { err := err, state := s }
  | DialTick.refused err :: rest =>
    let s1 := { s with trace := s.trace ++ [ConnectEvent.dial] }
    if s1.isFirstTry then
      some { err := errServerUnavailable, state := s1 }
    else
      let retry := s1.retry + 1
      if retry > env.CLIENT_MAX_RETRY then
        some { err := errMaxRetry err, state := { s1 with retry := retry } }
      else
        ServerConnect.loop env
          { s1 with
            retry := retry
            logs := s1.logs ++ ["Connection error: " ++ err ++ ", retry " ++ toString retry
              ++ "/" ++ toString env.CLIENT_MAX_RETRY ++ "\n"]
            trace := s1.trace ++ [ConnectEvent.sleep retry] }
          rest
  | DialTick.connected conn :: rest =>
    ServerConnect.loop env
      { s with
        client := { s.client with conn := some (Connection.New conn) }
        isFirstTry := false
        logs := s.logs ++ ["Connected to " ++ s.client.addr ++ "\n"]
        trace := s.trace ++ [ConnectEvent.dial, ConnectEvent.session] }
      rest

/-- The method `Client.ServerConnect`: the loop from `retry = 0`, `isFirstTry = true`,
then the deferred log line. `none` means that the script ended before the function
returned. -/
def Client.ServerConnect (env : Env) (c : Client) (script : List DialTick) :
    Option ConnectResult :=
  (ServerConnect.loop env
      { client := c, retry := 0, isFirstTry := true, trace := [], logs := [] } script).map
    fun r => { r with state := { r.state with logs := r.state.logs ++ ["ServerConnect exit\n"] } }

/-- The effects of a refused dial at retry count `retry` followed by `k` refused
retries: each refused dial but the last is followed by a sleep of the new retry count. -/
def backoffTrace (retry : Nat) : Nat → List ConnectEvent
  | 0 => [ConnectEvent.dial]
  | k + 1 => ConnectEvent.dial :: ConnectEvent.sleep (retry + 1) :: backoffTrace (retry + 1) k

/-- The number of `net.Dial` calls in a trace. -/
def dialCount (trace : List ConnectEvent) : Nat :=
  trace.count ConnectEvent.dial

/-- The durations of the sleeps in a trace, in order. -/
def sleeps : List ConnectEvent → List Nat
  | [] => []
  | ConnectEvent.sleep n :: rest => n :: sleeps rest
  | _ :: rest => sleeps rest

/-- For every dial of a trace, in order, the seconds slept since the dial before it
(`pending` is what was slept so far). -/
def sleptBeforeDials (pending : Nat) : List ConnectEvent → List Nat
  | [] => []
  | ConnectEvent.dial :: rest => pending :: sleptBeforeDials 0 rest
  | ConnectEvent.sleep n :: rest => sleptBeforeDials (pending + n) rest
  | ConnectEvent.session :: rest => sleptBeforeDials pending rest

/-- The sleep taken before attempt `k` of a trace (attempts are the dials, counted
from 1): the seconds slept between dial `k - 1` and dial `k`. -/
def sleepBeforeAttempt (trace : List ConnectEvent) (k : Nat) : Option Nat :=
  (sleptBeforeDials 0 trace)[k - 1]?

/-! ### The session: `sender` and `listner` -/

/-- The level of a log call. -/
inductive Level where
  | Info
  | Warn
  | Error
  | Fatal
  deriving DecidableEq, Repr

/-- What the loops of a session put out: a log line, the print of a received text
with the name of the peer (`fmt.Printf("%s <%s> %s\n", now, name, text)`), and the three
prints of the default case of the dispatch. -/
inductive Event where
  | log (level : Level) (text : String)
  | received (name : String) (text : Bytes)
  | printType (typ : MsgType)
  | printLen (len : Nat)
  | printData (body : Bytes)
  deriving DecidableEq, Repr

/-- The client together with what a session did so far: the events put out, the
frames flushed to the stream, and the calls of the cancel function of the session
context. -/
structure World where
  client : Client
  out : List Event
  written : List Bytes
  cancelCalls : Nat
  deriving DecidableEq, Repr

/-- Record a log call. -/
def World.log (w : World) (level : Level) (text : String) : World :=
  { w with out := w.out ++ [Event.log level text] }

/-- Record a print. -/
def World.print (w : World) (e : Event) : World :=
  { w with out := w.out ++ [e] }

/-- The result of `c.conn.Conn.Read(bytes)`. -/
inductive ReadResult where
  | data (received : Bytes)
  | eof
  | error (err : String)
  deriving DecidableEq, Repr

/-- One iteration of the `select` of `listner`: the session context is done, or the
ticker fired and the read, if the iteration gets to it, returns the given result. -/
inductive ListnerTick where
  | ctxDone
  | tick (read : ReadResult)
  deriving DecidableEq, Repr

/-- The buffer `bytes` after a successful read: `make([]byte, MSG_MAX_SIZE)` with the
received bytes (at most the size of the buffer) at its start. -/
def readInto (size : Nat) (received : Bytes) : Bytes :=
  received.take size ++ List.replicate (size - received.length) 0

/-- Whether a loop goes on to its next iteration or returns. -/
inductive Step where
  | next (w : World)
  | stop (w : World)
  deriving DecidableEq, Repr

/-- The `switch msg.Type` of `listner`, on the connection `conn` that `c.conn`
points to. -/
def dispatch (env : Env) (w : World) (conn : Connection) (msg : Message) : World :=
  match msg.Typ with
  | MsgType.HELLO => w.log Level.Info ">>Hello!"
  | MsgType.ACK => w.log Level.Info ">>Ack!"
  | MsgType.MSG =>
    let decrypted := env.MessageDecrypt (env.Data msg) w.client.privKey
    w.print (Event.received conn.Name decrypted)
  | MsgType.KEY =>
    let w1 := w.log Level.Info "recieving users pub key..."
    match env.BytesToPub msg.Body with
    | Except.error err => w1.log Level.Error ("error decoding user pub key: " ++ err ++ "\n")
    | Except.ok userPubKey =>
      let conn1 := conn.Updade userPubKey
      let w2 := { w1 with client := { w1.client with conn := some conn1 } }
      w2.log Level.Warn ("<" ++ conn1.Name ++ "> entered the chat")
  | MsgType.other tag =>
    let w1 := w.print (Event.printType (MsgType.other tag))
    if msg.Len > 0 then
      (w1.print (Event.printLen msg.Len)).print (Event.printData msg.Body)
    else w1

/-- The body of the `for` loop of `listner`, for one outcome of its `select`. -/
def listnerIter (env : Env) (w : World) : ListnerTick → Step
  | ListnerTick.ctxDone => Step.stop w
  | ListnerTick.tick read =>
    match w.client.conn with
    | none => Step.stop (w.log Level.Warn "Listner: No connection")
    | some conn =>
      match conn.Conn with
      | none => Step.stop (w.log Level.Warn "Listner: No connection")
      | some _ =>
        match read with
        | ReadResult.eof =>
          let msg := if conn.Name ≠ "" then "<" ++ conn.Name ++ "> disconnected"
            else "Client disconnected"
          Step.stop (w.log Level.Warn msg)
        | ReadResult.error err =>
          Step.next (w.log Level.Error ("Listner: Read error: " ++ err))
        | ReadResult.data received =>
          let bytes := readInto env.MSG_MAX_SIZE received
          let (msg, err) := env.Deserialize bytes
          let w1 := match err with
            | some e => w.log Level.Error ("deserialize error: " ++ e ++ "\n")
            | none => w
          Step.next (dispatch env w1 conn msg)

/-- The `for` loop of `listner`; `none` when the script ends before the loop returns. -/
def listnerLoop (env : Env) (w : World) : List ListnerTick → Option World
  | [] => none
  | t :: rest =>
    match listnerIter env w t with
    | Step.stop w1 => some w1
    | Step.next w1 => listnerLoop env w1 rest

/-- The deferred function of `listner`: log, `c.disconnect()`, stop the ticker, cancel
the session context. -/
def listnerTeardown (w : World) : World :=
  let w1 := w.log Level.Info "Listner: Closing connection"
  { w1 with client := w1.client.disconnect, cancelCalls := w1.cancelCalls + 1 }

/-- The method `Client.listner`: the loop, then the deferred function. -/
def listner (env : Env) (w : World) (script : List ListnerTick) : Option World :=
  (listnerLoop env w script).map listnerTeardown

/-- One iteration of the `select` of `sender`: the session context is done, or a
message is received from `msgCh` and `writer.Write` and `writer.Flush` return the given
errors. -/
inductive SenderTick where
  | ctxDone
  | recv (writeErr : Option String) (flushErr : Option String)
  deriving DecidableEq, Repr

/-- How `sender` ended: it returned, after its deferred function, or `log.Fatalf`
ended the process, in which case no deferred function runs. -/
inductive Ended where
  | returned (w : World)
  | fatal (w : World)
  deriving DecidableEq, Repr

/-- The handshake goroutine started by `sender`: send the own public key as a KEY
message on `msgCh`, or log the encoding error. -/
def handshake (env : Env) (w : World) : World :=
  match env.PubToBytes w.client.pubKey with
  | Except.error err => w.log Level.Error ("Sender: PEM pub key error: " ++ err ++ "\n")
  | Except.ok pem => { w with client := { w.client with msgCh := w.client.msgCh ++ [NewKey pem] } }

/-- The deferred function of `sender`: log, `c.disconnect()`, cancel the session
context. -/
def senderTeardown (w : World) : World :=
  let w1 := w.log Level.Info "Sender: Closing connection"
  { w1 with client := w1.client.disconnect, cancelCalls := w1.cancelCalls + 1 }

/-- The `for` loop of `sender`, with the deferred function at every return; `none`
when the script ends before the loop returns, or when the script lets a message arrive
while `msgCh` holds none. -/
def senderLoop (env : Env) (w : World) : List SenderTick → Option Ended
  | [] => none
  | SenderTick.ctxDone :: _ => some (Ended.returned (senderTeardown w))
  | SenderTick.recv writeErr flushErr :: rest =>
    match w.client.msgCh with
    | [] => none
    | msg :: queue =>
      let w1 := { w with client := { w.client with msgCh := queue } }
      let mBytes := env.Serialize msg
      match writeErr with
      | some err => some (Ended.fatal (w1.log Level.Fatal ("Sender: write error: " ++ err ++ "\n")))
      | none =>
        match flushErr with
        | some err =>
          some (Ended.returned (senderTeardown (w1.log Level.Error ("Sender: Flush error: " ++ err))))
        | none => senderLoop env { w1 with written := w1.written ++ [mBytes] } rest

/-- The method `Client.sender`: the handshake goroutine, then the loop. -/
def sender (env : Env) (w : World) (script : List SenderTick) : Option Ended :=
  senderLoop env (handshake env w) script

/-- The world in which `sender` ended. -/
def Ended.world : Ended → World
  | Ended.returned w => w
  | Ended.fatal w => w

/-- The stream `c.conn.Conn` of the client, when there is a connection and it has one. -/
def streamOf (w : World) : Option Stream :=
  match w.client.conn with
  | none => none
  | some conn => conn.Conn

/-- The number of `Close` calls made so far on the stream of the connection of the
client (0 when there is no connection or no stream). -/
def closeCalls (w : World) : Nat :=
  match streamOf w with
  | none => 0
  | some stream => stream.closeCalls

/-- The texts that the receive loop surfaced as received messages, in order. -/
def receivedTexts : List Event → List Bytes
  | [] => []
  | Event.received _ text :: rest => text :: receivedTexts rest
  | _ :: rest => receivedTexts rest

/-! ### A concrete instance of the parameters, for concrete runs -/

/-- The type of a frame from its first byte, in the concrete instance. -/
def demoType : Nat → MsgType
  | 0 => MsgType.HELLO
  | 1 => MsgType.ACK
  | 2 => MsgType.MSG
  | 3 => MsgType.KEY
  | n => MsgType.other n

/-- The first byte of a frame from its type, in the concrete instance. -/
def demoTag : MsgType → Nat
  | MsgType.HELLO => 0
  | MsgType.ACK => 1
  | MsgType.MSG => 2
  | MsgType.KEY => 3
  | MsgType.other n => n

/-- A decoder for the concrete instance: one byte of type, one byte of length, the
body. A declared length beyond the bytes at hand is an error, returned together with
the message parsed up to that point; a buffer too short for a header is an error
returned with the zero message. -/
def demoDeserialize : Bytes → Message × Option String
  | t :: n :: body =>
    if n ≤ body.length then
      ({ Typ := demoType t, Len := n, Body := body.take n }, none)
    else
      ({ Typ := demoType t, Len := n, Body := [] }, some "declared length exceeds the frame")
  | _ => ({ Typ := MsgType.HELLO, Len := 0, Body := [] }, some "short frame")

/-- A concrete instance of the parameters: a retry budget of 3, buffers of 8 bytes, a
toy cipher that reverses the bytes, keys encoded as their two numbers. It stands in for
the imported packages only to run the embedded code on concrete inputs. -/
def demoEnv : Env where
  CLIENT_MAX_RETRY := 3
  MSG_MAX_SIZE := 8
  MessageEncrypt := fun msg _ => msg.reverse
  MessageDecrypt := fun cipher _ => cipher.reverse
  PubToBytes := fun k => Except.ok [k.N, k.E]
  BytesToPub := fun bs =>
    match bs with
    | [n, e] => Except.ok { N := n, E := e }
    | _ => Except.error "not a public key"
  Deserialize := demoDeserialize
  Serialize := fun m => demoTag m.Typ :: m.Len :: m.Body
  Data := fun m => m.Body

/-- A client that is connected on stream 7, with no peer key and an empty mailbox. -/
def demoClient : Client :=
  { addr := "localhost:3000"
    conn := some (Connection.New { id := 7, closeCalls := 0 })
    msgCh := []
    privKey := { PublicKey := { N := 33, E := 3 }, D := 7 }
    pubKey := { N := 33, E := 3 } }

/-- The start of a session of `demoClient`. -/
def demoWorld : World :=
  { client := demoClient, out := [], written := [], cancelCalls := 0 }

end Dmtor

/-! ## Theorems about `internal/client/client.go` -/

namespace Shaihulud

/-- C1, as stated, fails: with no peer key (the key is empty) `Send` of the sample
client is not rejected. It returns no error and puts one MSG message on `msgCh`; and
`SendMessage` of `client/client.go`, which has no error result at all, puts one MSG
message on `msgCh` for a connection whose peer key is the zero key. -/
theorem send_before_key_not_rejected :
    ((sampleClient Local sampleCrypter []).Send [104, 105]).err = none ∧
    ((sampleClient Local sampleCrypter []).Send [104, 105]).msgCh
      = some [NewMSG [105, 104]] ∧
    (Dmtor.demoClient.SendMessage Dmtor.demoEnv [104, 105]).map (fun c => c.msgCh)
      = some [NewMSG [105, 104]] := by
  decide

/-- C1, amended: `Send` has no readiness check. With an empty peer key it hands the empty
key to `crypter.Encrypt`; it returns an error and leaves `msgCh` as it was exactly when
`Encrypt` returns that error, and otherwise puts one MSG message with the ciphertext on
`msgCh` and returns nil. `SendMessage` puts one MSG message with the output of
`MessageEncrypt` on `msgCh`, whatever the peer key of the connection is. -/
theorem send_without_peer_key (c : Client) (u : Connection) (msg : Bytes)
    (hu : c.user = some u) (hk : u.PubKey = []) :
    (∀ e, c.crypter.Encrypt msg [] = Except.error e →
      c.Send msg = SendResult.returned c (some e)) ∧
    (∀ ct, c.crypter.Encrypt msg [] = Except.ok ct →
      c.Send msg = SendResult.returned { c with msgCh := c.msgCh ++ [NewMSG ct] } none) ∧
    (∀ (env : Dmtor.Env) (d : Dmtor.Client) (conn : Dmtor.Connection), d.conn = some conn →
      d.SendMessage env msg
        = some { d with msgCh := d.msgCh ++ [NewMSG (env.MessageEncrypt msg conn.PubKey)] }) := by
  refine ⟨?_, ?_, ?_⟩
  · intro e he
    simp only [Client.Send, hu, hk, he]
  · intro ct hct
    simp only [Client.Send, hu, hk, hct]
  · intro env d conn hd
    simp only [Dmtor.Client.SendMessage, hd]

/-- Witness of C1, amended: a crypter that refuses the empty key makes `Send` return its
error, with nothing put on `msgCh`. -/
theorem send_without_peer_key_witness :
    (sampleClient Local strictCrypter []).user
      = some { Conn := some { id := 7, closeCalls := 0 }, Name := "", PubKey := [] } ∧
    ((sampleClient Local strictCrypter []).Send [104, 105]).err = some "no public key" ∧
    ((sampleClient Local strictCrypter []).Send [104, 105]).msgCh = some [] :=
  have h := (send_without_peer_key (sampleClient Local strictCrypter [])
    { Conn := some { id := 7, closeCalls := 0 }, Name := "", PubKey := [] } [104, 105]
    rfl rfl).1 "no public key" rfl
  ⟨rfl, by rw [h]; rfl, by rw [h]; rfl⟩

/-- C2: for every plaintext and every client with a known peer public key, when
`crypter.Encrypt(msg, user.PubKey)` returns a ciphertext, `Send` puts exactly one message
at the end of `msgCh`, of type MSG and with that ciphertext as its body, and returns nil;
when `Encrypt` returns an error, `Send` returns that error and leaves `msgCh` (and the
whole client) as it was. -/
theorem send_enqueues_ciphertext (c : Client) (u : Connection) (msg : Bytes)
    (hu : c.user = some u) (_hk : u.PubKey ≠ []) :
    (∀ ct, c.crypter.Encrypt msg u.PubKey = Except.ok ct →
      c.Send msg = SendResult.returned { c with msgCh := c.msgCh ++ [NewMSG ct] } none ∧
      (NewMSG ct).Typ = MsgType.MSG ∧ (NewMSG ct).Body = ct) ∧
    (∀ e, c.crypter.Encrypt msg u.PubKey = Except.error e →
      c.Send msg = SendResult.returned c (some e)) := by
  refine ⟨?_, ?_⟩
  · intro ct hct
    refine ⟨?_, rfl, rfl⟩
    simp only [Client.Send, hu, hct]
  · intro e he
    simp only [Client.Send, hu, he]

/-- Witness of C2: the sample client with the peer key `[33, 3]` sends `[104, 105]` as
one MSG message with the ciphertext `[105, 104]`. -/
theorem send_enqueues_ciphertext_witness :
    (sampleClient Local sampleCrypter [33, 3]).user
      = some { Conn := some { id := 7, closeCalls := 0 }, Name := "", PubKey := [33, 3] } ∧
    ([33, 3] : Bytes) ≠ [] ∧
    ((sampleClient Local sampleCrypter [33, 3]).Send [104, 105]).msgCh
      = some [{ Typ := MsgType.MSG, Len := 2, Body := [105, 104] }] ∧
    ((sampleClient Local sampleCrypter [33, 3]).Send [104, 105]).err = none :=
  have h := ((send_enqueues_ciphertext (sampleClient Local sampleCrypter [33, 3])
    { Conn := some { id := 7, closeCalls := 0 }, Name := "", PubKey := [33, 3] } [104, 105]
    rfl (by decide)).1 [105, 104] rfl).1
  ⟨rfl, by decide, by rw [h]; rfl, by rw [h]; rfl⟩

/-- C10 on the code: `RunClient` hands `"localhost:3000"` to `connector.RunClient` for
`Local`, and for any type other than `Local` and `Tor` it returns an error without a
call of the connector and without an event; but for `Tor` the address handed to the
connector is the empty string, not `"demo.onion"`, because the `Tor` case declares a new
variable instead of assigning the one that is passed on. -/
theorem runClient_dialled_address (c : Client) :
    (c.connType = Local → c.RunClient.dialled = ["localhost:3000"]) ∧
    (c.connType = Tor → c.RunClient.dialled = [""]) ∧
    (c.connType ≠ Local → c.connType ≠ Tor →
      c.RunClient.dialled = [] ∧ c.RunClient.client.eventsCh = c.eventsCh ∧
      c.RunClient.err = some ("unknown connection type: " ++ toString c.connType ++ "\n")) := by
  refine ⟨?_, ?_, ?_⟩
  · intro h
    simp only [Client.RunClient, RunClient.selectAddress, h, if_true]
    cases c.connector.RunClient "localhost:3000" <;> rfl
  · intro h
    have hne : ¬ (Tor = Local) := by decide
    simp only [Client.RunClient, RunClient.selectAddress, h, hne, if_true, if_false]
    cases c.connector.RunClient "" <;> rfl
  · intro h1 h2
    simp only [Client.RunClient, RunClient.selectAddress, h1, h2, if_false]
    exact ⟨trivial, trivial, trivial⟩

/-- Witness of C10 on the code: the sample client of type `Tor` dials the empty
address, and its connector refuses it. -/
theorem runClient_dialled_address_witness :
    (sampleClient Tor sampleCrypter []).connType = Tor ∧
    (sampleClient Tor sampleCrypter []).RunClient.dialled = [""] :=
  ⟨rfl, (runClient_dialled_address (sampleClient Tor sampleCrypter [])).2.1 rfl⟩

end Shaihulud

/-! ## Theorems about `client/client.go` -/

namespace Dmtor

/-! ### `ServerConnect` -/

theorem sleeps_backoffTrace (retry k : Nat) :
    sleeps (backoffTrace retry k) = List.range' (retry + 1) k := by
  induction k generalizing retry with
  | zero => rfl
  | succ k ih => simp [backoffTrace, sleeps, ih, List.range'_succ]

theorem dialCount_backoffTrace (retry k : Nat) :
    dialCount (backoffTrace retry k) = k + 1 := by
  induction k generalizing retry with
  | zero => rfl
  | succ k ih =>
    have h := ih (retry + 1)
    simp only [dialCount] at h ⊢
    simp [backoffTrace, h]

theorem sleptBeforeDials_backoffTrace (pending retry k : Nat) :
    sleptBeforeDials pending (backoffTrace retry k) = pending :: List.range' (retry + 1) k := by
  induction k generalizing pending retry with
  | zero => rfl
  | succ k ih => simp [backoffTrace, sleptBeforeDials, ih, List.range'_succ]

/-- From a state past the first connect with `k` retries left in the budget, `k + 1`
refused dials (and any ticks after them) end the loop with the exhausted-retries error;
the effects are those of `backoffTrace`. -/
theorem loop_refused (env : Env) (err : String) (n k : Nat) (s : ConnectState)
    (hfirst : s.isFirstTry = false) (hretry : s.retry + k = env.CLIENT_MAX_RETRY) :
    ∃ r, ServerConnect.loop env s (List.replicate (k + 1 + n) (DialTick.refused err)) = some r ∧
      r.err = errMaxRetry err ∧ r.state.retry = env.CLIENT_MAX_RETRY + 1 ∧
      r.state.trace = s.trace ++ backoffTrace s.retry k ∧ r.state.client = s.client := by
  induction k generalizing s with
  | zero =>
    have hgt : env.CLIENT_MAX_RETRY < s.retry + 1 := by omega
    rw [show 0 + 1 + n = n + 1 by omega, List.replicate_succ]
    refine ⟨{ err := errMaxRetry err, state := { s with
      trace := s.trace ++ [ConnectEvent.dial], retry := s.retry + 1 } }, ?_, rfl, ?_, rfl, rfl⟩
    · simp [ServerConnect.loop, hfirst, hgt]
    · show s.retry + 1 = env.CLIENT_MAX_RETRY + 1
      omega
  | succ k ih =>
    have hle : ¬ env.CLIENT_MAX_RETRY < s.retry + 1 := by omega
    rw [show k + 1 + 1 + n = (k + 1 + n) + 1 by omega, List.replicate_succ]
    obtain ⟨r, hr, herr, hret, htrace, hclient⟩ := ih
      { s with
        trace := s.trace ++ [ConnectEvent.dial] ++ [ConnectEvent.sleep (s.retry + 1)]
        retry := s.retry + 1
        logs := s.logs ++ ["Connection error: " ++ err ++ ", retry " ++ toString (s.retry + 1)
          ++ "/" ++ toString env.CLIENT_MAX_RETRY ++ "\n"] }
      hfirst (by show s.retry + 1 + k = env.CLIENT_MAX_RETRY; omega)
    refine ⟨r, ?_, herr, hret, ?_, hclient⟩
    · rw [← hr]
      simp [ServerConnect.loop, hfirst, hle]
    · rw [htrace]
      simp [backoffTrace]

/-- The run in which the first dial connects, the session ends and every later dial is
refused: the exhausted-retries error, with the effects of the connect followed by
those of `backoffTrace` from retry count 0. -/
theorem serverConnect_connected_then_refused (env : Env) (c : Client) (conn : Stream)
    (err : String) (n : Nat) :
    ∃ r, c.ServerConnect env (DialTick.connected conn ::
        List.replicate (env.CLIENT_MAX_RETRY + 1 + n) (DialTick.refused err)) = some r ∧
      r.err = errMaxRetry err ∧ r.state.retry = env.CLIENT_MAX_RETRY + 1 ∧
      r.state.trace = [ConnectEvent.dial, ConnectEvent.session]
        ++ backoffTrace 0 env.CLIENT_MAX_RETRY := by
  obtain ⟨r, hr, herr, hret, htrace, _⟩ := loop_refused env err n env.CLIENT_MAX_RETRY
    { client := { c with conn := some (Connection.New conn) }
      retry := 0
      isFirstTry := false
      logs := [] ++ ["Connected to " ++ c.addr ++ "\n"]
      trace := [] ++ [ConnectEvent.dial, ConnectEvent.session] }
    rfl (by simp)
  refine ⟨{ r with state := { r.state with logs := r.state.logs ++ ["ServerConnect exit\n"] } },
    ?_, herr, hret, ?_⟩
  · simp only [Client.ServerConnect, ServerConnect.loop]
    rw [hr]
    rfl
  · simpa using htrace

theorem getLast_backoffTrace (retry k : Nat) :
    (backoffTrace retry k).getLast? = some ConnectEvent.dial := by
  induction k generalizing retry with
  | zero => rfl
  | succ k ih =>
    have h := ih (retry + 1)
    cases hb : backoffTrace (retry + 1) k with
    | nil => rw [hb] at h; cases h
    | cons e es =>
      rw [hb] at h
      simpa [backoffTrace, hb, List.getLast?_cons_cons] using h

/-- C3, as stated, fails: with a retry budget of 3, a peer that refuses every dial
makes `ServerConnect` return the server-unavailable error after one dial and no sleep,
which is neither the exhausted-retries error nor 3 + 1 dials. -/
theorem serverConnect_always_refused_not_exhausted :
    (demoClient.ServerConnect demoEnv (List.replicate 5 (DialTick.refused "connection refused"))).map
        (fun r => (r.err, dialCount r.state.trace, sleeps r.state.trace))
      = some (errServerUnavailable, 1, []) ∧
    errServerUnavailable ≠ errMaxRetry "connection refused" ∧
    1 ≠ demoEnv.CLIENT_MAX_RETRY + 1 := by
  decide

/-- C3, amended: for a peer address whose every dial attempt is refused, `ServerConnect`
returns the server-unavailable error after a single dial and no sleep. The
exhausted-retries error (`Max retry reached`) is returned when the first dial connects,
the session ends, and every later dial is refused: then after exactly `CLIENT_MAX_RETRY`
retried attempts in addition to the first refused attempt (`CLIENT_MAX_RETRY + 1` refused
dials, after the one that connected), with the delays between successive attempts
1, 2, ..., `CLIENT_MAX_RETRY` seconds, strictly increasing. -/
theorem serverConnect_retry_budget (env : Env) (c : Client) (conn : Stream) (err : String)
    (n : Nat) :
    (c.ServerConnect env (List.replicate (n + 1) (DialTick.refused err))).map
        (fun r => (r.err, r.state.trace))
      = some (errServerUnavailable, [ConnectEvent.dial]) ∧
    ∃ r, c.ServerConnect env (DialTick.connected conn ::
        List.replicate (env.CLIENT_MAX_RETRY + 1 + n) (DialTick.refused err)) = some r ∧
      r.err = errMaxRetry err ∧
      dialCount r.state.trace = 1 + (env.CLIENT_MAX_RETRY + 1) ∧
      sleeps r.state.trace = List.range' 1 env.CLIENT_MAX_RETRY ∧
      (sleeps r.state.trace).Pairwise (fun a b => a < b) := by
  refine ⟨rfl, ?_⟩
  obtain ⟨r, hr, herr, _, htrace⟩ := serverConnect_connected_then_refused env c conn err n
  have hsleeps : sleeps r.state.trace = List.range' 1 env.CLIENT_MAX_RETRY := by
    rw [htrace]
    simpa [sleeps] using sleeps_backoffTrace 0 env.CLIENT_MAX_RETRY
  refine ⟨r, hr, herr, ?_, hsleeps, ?_⟩
  · rw [htrace]
    have h := dialCount_backoffTrace 0 env.CLIENT_MAX_RETRY
    simp only [dialCount] at h ⊢
    simp [h]
    omega
  · rw [hsleeps]
    exact List.pairwise_lt_range' 1 env.CLIENT_MAX_RETRY

/-- C4: if the very first dial of `ServerConnect` is refused (the context is not done),
`ServerConnect` returns the server-unavailable error at once: the only effect is one
dial (no sleep, no session with its connection and loops), the retry counter is still 0,
and the client is as it was, whatever the environment would do next. -/
theorem serverConnect_first_dial_refused (env : Env) (c : Client) (err : String)
    (rest : List DialTick) :
    c.ServerConnect env (DialTick.refused err :: rest)
      = some { err := errServerUnavailable
               state := { client := c, retry := 0, isFirstTry := true
                          trace := [ConnectEvent.dial], logs := ["ServerConnect exit\n"] } } := by
  rfl

/-- C5, as stated, fails: with a retry budget of 3, in the run where the first dial
connects and every later dial is refused, the sleep before attempt 2 does not last 2
seconds. It lasts 0 seconds when the attempts are counted from the first dial of the run
and 1 second when they are counted from the first refused dial; the sleep before attempt
3 then lasts 1 or 2 seconds. -/
theorem serverConnect_sleep_before_attempt_two :
    (demoClient.ServerConnect demoEnv (DialTick.connected { id := 7, closeCalls := 0 } ::
        List.replicate 4 (DialTick.refused "connection refused"))).map
      (fun r => (sleepBeforeAttempt r.state.trace 2, sleepBeforeAttempt (r.state.trace.drop 2) 2,
        sleepBeforeAttempt r.state.trace 3, sleepBeforeAttempt (r.state.trace.drop 2) 3))
      = some (some 0, some 1, some 1, some 2) ∧
    2 ≤ demoEnv.CLIENT_MAX_RETRY := by
  decide

/-- C5, amended: on the dial path of `ServerConnect`, past a first connect, the backoff
is linear in the retry counter, the number of refused dials so far. When every later
dial is refused, no sleep precedes the first refused attempt, and for every `k` with
`1 ≤ k ≤ CLIENT_MAX_RETRY` the sleep taken before refused attempt `k + 1` lasts exactly
`k` seconds; the refused dial that takes the retry count past `CLIENT_MAX_RETRY` makes
the function return the terminal error: that dial is the last effect, there is no
attempt `CLIENT_MAX_RETRY + 2`, however long the peer goes on refusing. -/
theorem serverConnect_backoff_linear_in_retry (env : Env) (c : Client) (conn : Stream)
    (err : String) (n k : Nat) (h1 : 1 ≤ k) (h2 : k ≤ env.CLIENT_MAX_RETRY) :
    ∃ r, c.ServerConnect env (DialTick.connected conn ::
        List.replicate (env.CLIENT_MAX_RETRY + 1 + n) (DialTick.refused err)) = some r ∧
      r.err = errMaxRetry err ∧
      r.state.retry = env.CLIENT_MAX_RETRY + 1 ∧
      sleepBeforeAttempt (r.state.trace.drop 2) 1 = some 0 ∧
      sleepBeforeAttempt (r.state.trace.drop 2) (k + 1) = some k ∧
      sleepBeforeAttempt (r.state.trace.drop 2) (env.CLIENT_MAX_RETRY + 2) = none ∧
      r.state.trace.getLast? = some ConnectEvent.dial := by
  obtain ⟨r, hr, herr, hret, htrace⟩ := serverConnect_connected_then_refused env c conn err n
  have hdrop : r.state.trace.drop 2 = backoffTrace 0 env.CLIENT_MAX_RETRY := by
    rw [htrace]; rfl
  refine ⟨r, hr, herr, hret, ?_, ?_, ?_, ?_⟩
  · rw [hdrop, sleepBeforeAttempt, sleptBeforeDials_backoffTrace]
    simp
  · rw [hdrop, sleepBeforeAttempt, sleptBeforeDials_backoffTrace]
    obtain ⟨j, rfl⟩ : ∃ j, k = j + 1 := ⟨k - 1, by omega⟩
    have hj : j < env.CLIENT_MAX_RETRY := by omega
    simp [List.getElem?_range', hj]
    omega
  · rw [hdrop, sleepBeforeAttempt, sleptBeforeDials_backoffTrace]
    simp
  · rw [htrace]
    have h := getLast_backoffTrace 0 env.CLIENT_MAX_RETRY
    cases hb : backoffTrace 0 env.CLIENT_MAX_RETRY with
    | nil => rw [hb] at h; cases h
    | cons e es =>
      rw [hb] at h
      simpa [List.getLast?_cons_cons] using h

/-- Witness of C5, amended: with a retry budget of 3, the sleep before the third
refused attempt lasts 2 seconds. -/
theorem serverConnect_backoff_linear_in_retry_witness :
    1 ≤ 2 ∧ 2 ≤ demoEnv.CLIENT_MAX_RETRY ∧
    ∃ r, demoClient.ServerConnect demoEnv (DialTick.connected { id := 7, closeCalls := 0 } ::
        List.replicate (demoEnv.CLIENT_MAX_RETRY + 1 + 0) (DialTick.refused "refused")) = some r ∧
      r.err = errMaxRetry "refused" ∧
      r.state.retry = demoEnv.CLIENT_MAX_RETRY + 1 ∧
      sleepBeforeAttempt (r.state.trace.drop 2) 1 = some 0 ∧
      sleepBeforeAttempt (r.state.trace.drop 2) (2 + 1) = some 2 ∧
      sleepBeforeAttempt (r.state.trace.drop 2) (demoEnv.CLIENT_MAX_RETRY + 2) = none ∧
      r.state.trace.getLast? = some ConnectEvent.dial :=
  ⟨by decide, by decide,
    serverConnect_backoff_linear_in_retry demoEnv demoClient { id := 7, closeCalls := 0 }
      "refused" 0 2 (by decide) (by decide)⟩

/-! ### The session: `sender` and `listner` -/

theorem streamOf_log (w : World) (level : Level) (text : String) :
    streamOf (w.log level text) = streamOf w := rfl

theorem streamOf_dispatch (env : Env) (w : World) (conn : Connection) (msg : Message)
    (hconn : w.client.conn = some conn) :
    streamOf (dispatch env w conn msg) = streamOf w := by
  unfold dispatch
  cases msg.Typ with
  | HELLO => rfl
  | ACK => rfl
  | MSG => rfl
  | KEY =>
    cases env.BytesToPub msg.Body with
    | error e => rfl
    | ok k => simp [streamOf, World.log, Connection.Updade, hconn]
  | other tag =>
    by_cases h : msg.Len > 0 <;> simp [h, streamOf, World.print]

theorem streamOf_listnerIter (env : Env) (w w1 : World) (t : ListnerTick)
    (h : listnerIter env w t = Step.next w1 ∨ listnerIter env w t = Step.stop w1) :
    streamOf w1 = streamOf w := by
  cases t with
  | ctxDone =>
    rcases h with h | h <;> simp [listnerIter] at h
    rw [← h]
  | tick read =>
    unfold listnerIter at h
    cases hconn : w.client.conn with
    | none =>
      simp only [hconn] at h
      rcases h with h | h
      · cases h
      · injection h with h; rw [← h]; rfl
    | some conn =>
      simp only [hconn] at h
      cases hs : conn.Conn with
      | none =>
        simp only [hs] at h
        rcases h with h | h
        · cases h
        · injection h with h; rw [← h]; rfl
      | some stream =>
        simp only [hs] at h
        cases read with
        | eof =>
          rcases h with h | h
          · cases h
          · injection h with h; rw [← h]; rfl
        | error err =>
          rcases h with h | h
          · injection h with h; rw [← h]; rfl
          · cases h
        | data received =>
          rcases h with h | h
          · injection h with h
            rw [← h]
            cases (env.Deserialize (readInto env.MSG_MAX_SIZE received)).2 with
            | none => exact streamOf_dispatch env w conn _ hconn
            | some e =>
              exact streamOf_dispatch env (w.log Level.Error _) conn _ hconn
          · cases h

theorem streamOf_listnerLoop (env : Env) (script : List ListnerTick) (w w1 : World)
    (h : listnerLoop env w script = some w1) : streamOf w1 = streamOf w := by
  induction script generalizing w with
  | nil => cases h
  | cons t rest ih =>
    unfold listnerLoop at h
    cases hstep : listnerIter env w t with
    | stop w2 =>
      simp only [hstep] at h
      injection h with h
      rw [← h]
      exact streamOf_listnerIter env w w2 t (Or.inr hstep)
    | next w2 =>
      simp only [hstep] at h
      rw [ih w2 h]
      exact streamOf_listnerIter env w w2 t (Or.inl hstep)

theorem streamOf_disconnect (w : World) (out : List Event) (cancelCalls : Nat) :
    streamOf { w with client := w.client.disconnect, out := out, cancelCalls := cancelCalls }
      = (streamOf w).map Stream.Close := by
  unfold streamOf Client.disconnect
  cases hconn : w.client.conn with
  | none => simp [hconn]
  | some conn =>
    cases hs : conn.Conn with
    | none => simp [hconn, hs]
    | some stream => simp [hconn, hs]

theorem streamOf_listnerTeardown (w : World) :
    streamOf (listnerTeardown w) = (streamOf w).map Stream.Close :=
  streamOf_disconnect w _ _

theorem streamOf_senderTeardown (w : World) :
    streamOf (senderTeardown w) = (streamOf w).map Stream.Close :=
  streamOf_disconnect w _ _

theorem streamOf_senderLoop (env : Env) (script : List SenderTick) (w w1 : World)
    (h : senderLoop env w script = some (Ended.returned w1)) :
    streamOf w1 = (streamOf w).map Stream.Close := by
  induction script generalizing w with
  | nil => cases h
  | cons t rest ih =>
    cases t with
    | ctxDone =>
      simp only [senderLoop, Option.some.injEq, Ended.returned.injEq] at h
      rw [← h]
      exact streamOf_senderTeardown w
    | recv writeErr flushErr =>
      unfold senderLoop at h
      cases hq : w.client.msgCh with
      | nil => simp [hq] at h
      | cons msg queue =>
        simp only [hq] at h
        cases writeErr with
        | some e => simp at h
        | none =>
          cases flushErr with
          | some e =>
            simp only [Option.some.injEq, Ended.returned.injEq] at h
            rw [← h, streamOf_senderTeardown]
            rfl
          | none =>
            simp only at h
            rw [ih _ h]
            rfl

theorem streamOf_handshake (env : Env) (w : World) :
    streamOf (handshake env w) = streamOf w := by
  unfold handshake
  cases env.PubToBytes w.client.pubKey <;> rfl

theorem streamOf_listner (env : Env) (script : List ListnerTick) (w w1 : World)
    (stream : Stream) (hs : streamOf w = some stream) (h : listner env w script = some w1) :
    streamOf w1 = some stream.Close := by
  unfold listner at h
  cases hl : listnerLoop env w script with
  | none => simp [hl] at h
  | some w2 =>
    simp only [hl, Option.map_some', Option.some.injEq] at h
    rw [← h, streamOf_listnerTeardown, streamOf_listnerLoop env script w w2 hl, hs]
    rfl

theorem streamOf_sender (env : Env) (script : List SenderTick) (w w1 : World)
    (stream : Stream) (hs : streamOf w = some stream)
    (h : sender env w script = some (Ended.returned w1)) :
    streamOf w1 = some stream.Close := by
  unfold sender at h
  rw [streamOf_senderLoop env script _ w1 h, streamOf_handshake, hs]
  rfl

/-- Whatever the decoder is: when `Deserialize` returns an error for the buffer that
was read, the iteration logs the error and then dispatches the message that was returned
with the error, exactly as it dispatches a message decoded without an error. -/
theorem listnerIter_deserialize_error (env : Env) (w : World) (conn : Connection)
    (stream : Stream) (received : Bytes) (msg : Message) (e : String)
    (hconn : w.client.conn = some conn) (hs : conn.Conn = some stream)
    (hmsg : env.Deserialize (readInto env.MSG_MAX_SIZE received) = (msg, some e)) :
    listnerIter env w (ListnerTick.tick (ReadResult.data received))
      = Step.next (dispatch env (w.log Level.Error ("deserialize error: " ++ e ++ "\n")) conn msg) := by
  simp only [listnerIter, hconn, hs, hmsg]

/-- C6 on the code: after a deserialize error the receive loop logs the error and
then dispatches on the type of the message that `Deserialize` returned with the error.
With the concrete decoder, a MSG frame whose declared length (200) exceeds the buffer is
an error, and the malformed frame followed by a well-formed MSG frame and the end of the
stream surfaces two received texts, the first one right after the diagnostic. -/
theorem listner_malformed_frame_is_dispatched :
    (demoEnv.Deserialize (readInto demoEnv.MSG_MAX_SIZE [2, 200, 1, 2])).2
      = some "declared length exceeds the frame" ∧
    (demoEnv.Deserialize (readInto demoEnv.MSG_MAX_SIZE [2, 3, 1, 2, 3])).2 = none ∧
    (listner demoEnv demoWorld
        [ListnerTick.tick (ReadResult.data [2, 200, 1, 2]),
         ListnerTick.tick (ReadResult.data [2, 3, 1, 2, 3]),
         ListnerTick.tick ReadResult.eof]).map
      (fun w => (w.out.take 2, receivedTexts w.out))
      = some ([Event.log Level.Error "deserialize error: declared length exceeds the frame\n",
               Event.received "" []],
              [[], [3, 2, 1]]) := by
  decide

/-- C7: in one iteration of the receive loop in which the ticker fired and the
connection has a stream, a read that returns `io.EOF` ends the loop (after the
disconnect line, the deferred function runs, whatever the rest of the script is), and a
read that returns any other error adds the error line to the log and nothing else: the
client, the connection and the written frames are unchanged, and the loop goes on with
the rest of the script. -/
theorem listner_read_outcome (env : Env) (w : World) (conn : Connection) (stream : Stream)
    (err : String) (rest : List ListnerTick)
    (hconn : w.client.conn = some conn) (hs : conn.Conn = some stream) :
    listnerIter env w (ListnerTick.tick ReadResult.eof)
      = Step.stop (w.log Level.Warn
          (if conn.Name ≠ "" then "<" ++ conn.Name ++ "> disconnected"
            else "Client disconnected")) ∧
    listner env w (ListnerTick.tick ReadResult.eof :: rest)
      = some (listnerTeardown (w.log Level.Warn
          (if conn.Name ≠ "" then "<" ++ conn.Name ++ "> disconnected"
            else "Client disconnected"))) ∧
    listnerIter env w (ListnerTick.tick (ReadResult.error err))
      = Step.next { w with out := w.out ++ [Event.log Level.Error ("Listner: Read error: " ++ err)] } ∧
    listner env w (ListnerTick.tick (ReadResult.error err) :: rest)
      = listner env
          { w with out := w.out ++ [Event.log Level.Error ("Listner: Read error: " ++ err)] }
          rest := by
  have heof : listnerIter env w (ListnerTick.tick ReadResult.eof)
      = Step.stop (w.log Level.Warn
          (if conn.Name ≠ "" then "<" ++ conn.Name ++ "> disconnected"
            else "Client disconnected")) := by
    simp only [listnerIter, hconn, hs]
  have herr : listnerIter env w (ListnerTick.tick (ReadResult.error err))
      = Step.next { w with out := w.out ++ [Event.log Level.Error ("Listner: Read error: " ++ err)] } := by
    simp only [listnerIter, hconn, hs, World.log]
  refine ⟨heof, ?_, herr, ?_⟩
  · simp only [listner, listnerLoop, heof, Option.map_some']
  · simp only [listner, listnerLoop, herr]

/-- Witness of C7: the sample session ends at an end of stream, and goes on after a
read that timed out. -/
theorem listner_read_outcome_witness :
    demoWorld.client.conn = some (Connection.New { id := 7, closeCalls := 0 }) ∧
    (Connection.New { id := 7, closeCalls := 0 }).Conn = some { id := 7, closeCalls := 0 } ∧
    listner demoEnv demoWorld [ListnerTick.tick ReadResult.eof, ListnerTick.ctxDone]
      = some (listnerTeardown (demoWorld.log Level.Warn "Client disconnected")) ∧
    listner demoEnv demoWorld [ListnerTick.tick (ReadResult.error "i/o timeout"), ListnerTick.ctxDone]
      = listner demoEnv
          { demoWorld with out := [Event.log Level.Error "Listner: Read error: i/o timeout"] }
          [ListnerTick.ctxDone] :=
  have h := listner_read_outcome demoEnv demoWorld (Connection.New { id := 7, closeCalls := 0 })
    { id := 7, closeCalls := 0 } "i/o timeout" [ListnerTick.ctxDone] rfl rfl
  ⟨rfl, rfl, h.2.1, h.2.2.2⟩

/-- C8, as stated, fails: in the sample session the stream is closed twice. When the
receive loop ends at the end of the stream and the send loop then sees the cancelled
context, and also when the send loop ends at a failed flush and the receive loop then
sees the cancelled context, the two deferred functions have called `Close` on the
stream two times in total. -/
theorem session_teardown_closes_twice :
    ((listner demoEnv demoWorld [ListnerTick.tick ReadResult.eof]).bind
        (fun w1 => sender demoEnv w1 [SenderTick.ctxDone])).map
      (fun e => (closeCalls e.world, e.world.cancelCalls)) = some (2, 2) ∧
    ((sender demoEnv demoWorld [SenderTick.recv none (some "broken pipe")]).bind
        (fun e => match e with
          | Ended.returned w1 => listner demoEnv w1 [ListnerTick.ctxDone]
          | Ended.fatal _ => none)).map
      (fun w2 => (closeCalls w2, w2.cancelCalls)) = some (2, 2) := by
  decide

/-- C8, amended: session teardown calls `Close` on the stream of the connection once
per loop. When both the send loop and the receive loop return and each runs its
deferred function, which calls `disconnect`, the total number of `Close` calls made on
the stream is exactly two, in either order of loop exit (`disconnect` skips a missing
connection or stream, and nothing clears the stream after the first `Close`). -/
theorem session_teardown_close_calls (env : Env) (w w1 w2 : World) (stream : Stream)
    (ls : List ListnerTick) (ss : List SenderTick) (hs : streamOf w = some stream) :
    (listner env w ls = some w1 → sender env w1 ss = some (Ended.returned w2) →
      closeCalls w2 = stream.closeCalls + 2) ∧
    (sender env w ss = some (Ended.returned w1) → listner env w1 ls = some w2 →
      closeCalls w2 = stream.closeCalls + 2) := by
  refine ⟨?_, ?_⟩
  · intro hl hsend
    have h1 := streamOf_listner env ls w w1 stream hs hl
    have h2 := streamOf_sender env ss w1 w2 stream.Close h1 hsend
    simp [closeCalls, h2, Stream.Close]
  · intro hsend hl
    have h1 := streamOf_sender env ss w w1 stream hs hsend
    have h2 := streamOf_listner env ls w1 w2 stream.Close h1 hl
    simp [closeCalls, h2, Stream.Close]

/-- Witness of C8, amended: the sample session, where the receive loop ends at the
end of the stream and the send loop at the cancelled context. -/
theorem session_teardown_close_calls_witness :
    streamOf demoWorld = some { id := 7, closeCalls := 0 } ∧
    listner demoEnv demoWorld [ListnerTick.tick ReadResult.eof]
      = some (listnerTeardown (demoWorld.log Level.Warn "Client disconnected")) ∧
    sender demoEnv (listnerTeardown (demoWorld.log Level.Warn "Client disconnected"))
        [SenderTick.ctxDone]
      = some (Ended.returned (senderTeardown (handshake demoEnv
          (listnerTeardown (demoWorld.log Level.Warn "Client disconnected"))))) ∧
    closeCalls (senderTeardown (handshake demoEnv
      (listnerTeardown (demoWorld.log Level.Warn "Client disconnected")))) = 0 + 2 :=
  ⟨rfl, rfl, rfl,
    (session_teardown_close_calls demoEnv demoWorld _ _ { id := 7, closeCalls := 0 }
      [ListnerTick.tick ReadResult.eof] [SenderTick.ctxDone] rfl).1 rfl rfl⟩

/-- C9: for every message that the receive loop decoded without an error and
dispatched, on a connection with a stream: when the type is KEY and `BytesToPub` parses
the body, the connection afterwards is the one before after `Updade` with the parsed
key, whose peer public key is the parsed key; when the type is KEY and the body does not
parse, or the type is HELLO, ACK, MSG or an unknown one, the client with its connection
(stream, identity, peer key) is unchanged. So the peer key differs afterwards only for
a KEY message whose body parses. -/
theorem listner_dispatch_peer_key (env : Env) (w : World) (conn : Connection)
    (stream : Stream) (received : Bytes) (msg : Message)
    (hconn : w.client.conn = some conn) (hs : conn.Conn = some stream)
    (hmsg : env.Deserialize (readInto env.MSG_MAX_SIZE received) = (msg, none)) :
    ∃ w1, listnerIter env w (ListnerTick.tick (ReadResult.data received)) = Step.next w1 ∧
      (∀ k, msg.Typ = MsgType.KEY → env.BytesToPub msg.Body = Except.ok k →
        w1.client.conn = some (conn.Updade k) ∧ (conn.Updade k).PubKey = k) ∧
      (msg.Typ ≠ MsgType.KEY ∨ (∃ e, env.BytesToPub msg.Body = Except.error e) →
        w1.client = w.client) ∧
      (w1.client.conn.map (fun c => c.PubKey) ≠ some conn.PubKey →
        msg.Typ = MsgType.KEY ∧ ∃ k, env.BytesToPub msg.Body = Except.ok k) := by
  refine ⟨dispatch env w conn msg, ?_, ?_, ?_, ?_⟩
  · simp only [listnerIter, hconn, hs, hmsg]
  · intro k hk hparse
    simp only [dispatch, hk, hparse]
    exact ⟨rfl, rfl⟩
  · intro h
    unfold dispatch
    cases ht : msg.Typ with
    | HELLO => rfl
    | ACK => rfl
    | MSG => rfl
    | KEY =>
      rcases h with h | ⟨e, he⟩
      · exact absurd ht h
      · simp only [he]
        rfl
    | other tag =>
      by_cases hl : msg.Len > 0 <;> simp [hl, World.print]
  · intro h
    unfold dispatch at h
    cases ht : msg.Typ with
    | HELLO => rw [ht] at h; exact absurd (by simp [World.log, hconn]) h
    | ACK => rw [ht] at h; exact absurd (by simp [World.log, hconn]) h
    | MSG => rw [ht] at h; exact absurd (by simp [World.print, hconn]) h
    | KEY =>
      cases hp : env.BytesToPub msg.Body with
      | ok k => exact ⟨rfl, k, rfl⟩
      | error e =>
        rw [ht] at h
        simp only [hp] at h
        exact absurd (by simp [World.log, hconn]) h
    | other tag =>
      rw [ht] at h
      by_cases hl : msg.Len > 0
      · simp only [hl, if_true] at h
        exact absurd (by simp [World.print, hconn]) h
      · simp only [hl, if_false] at h
        exact absurd (by simp [World.print, hconn]) h

/-- Witness of C9: in the sample session a KEY frame with the body `[5, 6]` binds the
peer key with `N = 5` and `E = 6` to the connection. -/
theorem listner_dispatch_peer_key_witness :
    demoWorld.client.conn = some (Connection.New { id := 7, closeCalls := 0 }) ∧
    (Connection.New { id := 7, closeCalls := 0 }).Conn = some { id := 7, closeCalls := 0 } ∧
    demoEnv.Deserialize (readInto demoEnv.MSG_MAX_SIZE [3, 2, 5, 6])
      = ({ Typ := MsgType.KEY, Len := 2, Body := [5, 6] }, none) ∧
    ∃ w1, listnerIter demoEnv demoWorld (ListnerTick.tick (ReadResult.data [3, 2, 5, 6]))
        = Step.next w1 ∧
      w1.client.conn = some { Conn := some { id := 7, closeCalls := 0 }, Name := ""
                              PubKey := { N := 5, E := 6 } } :=
  have h := listner_dispatch_peer_key demoEnv demoWorld
    (Connection.New { id := 7, closeCalls := 0 }) { id := 7, closeCalls := 0 } [3, 2, 5, 6]
    { Typ := MsgType.KEY, Len := 2, Body := [5, 6] } rfl rfl rfl
  ⟨rfl, rfl, rfl, h.elim fun w1 hw => ⟨w1, hw.1, (hw.2.1 { N := 5, E := 6 } rfl rfl).1⟩⟩

end Dmtor

end GoTorChat
